import Mathlib

/-!
Verification of the market strategy dashboard (src/app.py).

The program is a linear pipeline: fetch two panels (FRED macro series and
Yahoo Finance closing prices), concatenate them on a shared daily index,
forward-fill, drop rows that still contain a missing cell, append three
derived columns, and render metrics, colored bars and a rule-based
recommendation from the last row and the fifth-from-last row.

Numeric cells are modelled as rationals; a possibly-missing cell (NaN in
pandas) is an `Option ℚ`.  Fallible fetches are `Except` values; the
uncaught / caught / returned distinction of the script's control flow is
made explicit as small inductive result types.
-/

namespace Dashboard

/-- One row of the FRED panel (`pdr.get_data_fred` result), cells possibly
missing. -/
structure FredRaw where
  WALCL : Option ℚ
  WTREGEN : Option ℚ
  RRPONTSYD : Option ℚ
  SOFR : Option ℚ
  IORB : Option ℚ
  T10Y2Y : Option ℚ
deriving DecidableEq, Repr

/-- One row of the Yahoo Finance panel (closing values of the three tickers),
cells possibly missing. -/
structure YfRaw where
  GSPC : Option ℚ
  VIX : Option ℚ
  MOVE : Option ℚ
deriving DecidableEq, Repr

/-- One row of the concatenated daily table (`pd.concat([df_fred, df_yf],
axis=1)` after resampling to daily grain): nine cells, each possibly
missing. -/
structure RawRow where
  WALCL : Option ℚ
  WTREGEN : Option ℚ
  RRPONTSYD : Option ℚ
  SOFR : Option ℚ
  IORB : Option ℚ
  T10Y2Y : Option ℚ
  GSPC : Option ℚ
  VIX : Option ℚ
  MOVE : Option ℚ
deriving DecidableEq, Repr

/-- An all-missing FRED row, used to pad the outer join when one panel is
shorter than the other on the daily index. -/
def emptyFred : FredRaw := ⟨none, none, none, none, none, none⟩

/-- An all-missing Yahoo row, used to pad the outer join. -/
def emptyYf : YfRaw := ⟨none, none, none⟩

/-- Column-wise concatenation of the two panels on the shared daily index
(`pd.concat(..., axis=1)`): row `i` of the result pairs row `i` of each
panel, with an all-missing row where a panel has no observation. -/
def joinRows (dfFred : List FredRaw) (dfYf : List YfRaw) : List RawRow :=
  (List.range (max dfFred.length dfYf.length)).map (fun i =>
    let f := (dfFred.get? i).getD emptyFred
    let y := (dfYf.get? i).getD emptyYf
    ⟨f.WALCL, f.WTREGEN, f.RRPONTSYD, f.SOFR, f.IORB, f.T10Y2Y,
     y.GSPC, y.VIX, y.MOVE⟩)

/-- Forward fill of one cell: keep the observed value, otherwise carry the
most recent prior value of the same column. -/
def fillCell (carry cell : Option ℚ) : Option ℚ :=
  match cell with
  | some v => some v
  | none => carry

/-- Forward fill of one row given the carries of every column. -/
def ffillStep (carry r : RawRow) : RawRow :=
  ⟨fillCell carry.WALCL r.WALCL, fillCell carry.WTREGEN r.WTREGEN,
   fillCell carry.RRPONTSYD r.RRPONTSYD, fillCell carry.SOFR r.SOFR,
   fillCell carry.IORB r.IORB, fillCell carry.T10Y2Y r.T10Y2Y,
   fillCell carry.GSPC r.GSPC, fillCell carry.VIX r.VIX,
   fillCell carry.MOVE r.MOVE⟩

/-- Forward fill of a row sequence from a given carry row. -/
def ffillFrom (carry : RawRow) : List RawRow → List RawRow
  | [] => []
  | r :: rs =>
    let r2 := ffillStep carry r
    r2 :: ffillFrom r2 rs

/-- A row with every cell missing: the carry before any observation. -/
def emptyRow : RawRow := ⟨none, none, none, none, none, none, none, none, none⟩

/-- The table-level forward fill, `fillna(method=ffill)`: each missing cell
is replaced by the most recent prior non-missing value in its column. -/
def ffill (rows : List RawRow) : List RawRow := ffillFrom emptyRow rows

/-- A row is complete when no cell is missing. -/
def isComplete (r : RawRow) : Bool :=
  r.WALCL.isSome && r.WTREGEN.isSome && r.RRPONTSYD.isSome &&
  r.SOFR.isSome && r.IORB.isSome && r.T10Y2Y.isSome &&
  r.GSPC.isSome && r.VIX.isSome && r.MOVE.isSome

/-- The `dropna()` step: keep exactly the rows with no missing cell. -/
def dropna (rows : List RawRow) : List RawRow := rows.filter isComplete

/-- Net liquidity of one row, `WALCL/1000000 - WTREGEN/1000 - RRPONTSYD/1000`
(missing whenever one of the three inputs is missing, as NaN propagates). -/
def netLiquidity (r : RawRow) : Option ℚ := do
  let w ← r.WALCL
  let t ← r.WTREGEN
  let p ← r.RRPONTSYD
  pure (w / 1000000 - t / 1000 - p / 1000)

/-- Rate spread of one row, `SOFR - IORB` (NaN-propagating). -/
def rateSpread (r : RawRow) : Option ℚ := do
  let s ← r.SOFR
  let i ← r.IORB
  pure (s - i)

/-- Sum of a window of possibly-missing cells: missing as soon as one cell
is missing, as in a pandas rolling aggregation with full min_periods. -/
def windowSum : List (Option ℚ) → Option ℚ
  | [] => some 0
  | x :: xs => do pure ((← x) + (← windowSum xs))

/-- The value at position `i` of `rolling(window=20).mean()` over a column:
the mean of the 20 cells ending at position `i`, missing when fewer than 20
positions precede `i` or when the window holds a missing cell. -/
def rolling20 (col : List (Option ℚ)) (i : ℕ) : Option ℚ :=
  let w := (col.drop (i - 19)).take 20
  if 19 ≤ i ∧ w.length = 20 then (windowSum w).map (fun s => s / 20)
  else none

/-- One row of the final table returned by the transform: the nine raw
columns plus the three derived columns, each cell possibly missing. -/
structure OutRow where
  WALCL : Option ℚ
  WTREGEN : Option ℚ
  RRPONTSYD : Option ℚ
  SOFR : Option ℚ
  IORB : Option ℚ
  T10Y2Y : Option ℚ
  GSPC : Option ℚ
  VIX : Option ℚ
  MOVE : Option ℚ
  Net_Liquidity : Option ℚ
  Rate_Spread : Option ℚ
  Liq_MA20 : Option ℚ
deriving DecidableEq, Repr

/-- Append the derived columns to the cleaned table, in source order:
`Net_Liquidity`, `Rate_Spread`, then `Liq_MA20` as the 20-row rolling mean
of the just-computed `Net_Liquidity` column. -/
def addDerived (rows : List RawRow) : List OutRow :=
  let nlCol := rows.map netLiquidity
  rows.mapIdx (fun i r =>
    ⟨r.WALCL, r.WTREGEN, r.RRPONTSYD, r.SOFR, r.IORB, r.T10Y2Y,
     r.GSPC, r.VIX, r.MOVE,
     netLiquidity r, rateSpread r, rolling20 nlCol i⟩)

/-- The transform step applied to the concatenated daily table (lines 40-48
of src/app.py): forward fill, drop incomplete rows, append the derived
columns. -/
def transform (rows : List RawRow) : List OutRow :=
  addDerived (dropna (ffill rows))

/-- Outcome of `get_market_data`: an uncaught exception propagating out of
the function, the caught FRED branch (an error message is shown with
`st.error` and `None` is returned), or a returned table. -/
inductive FetchOutcome (ε : Type) where
  | raised (e : ε)
  | caughtError
  | data (df : List OutRow)
deriving DecidableEq

/-- The fetch-and-transform step `get_market_data`, over the results of the
two network calls: a FRED failure is caught (message shown, `None`
returned); a Yahoo failure is not inside the `try` and propagates; on
success the joined table is transformed and returned. -/
def get_market_data {ε : Type} (fredFetch : Except ε (List FredRaw))
    (yfFetch : Except ε (List YfRaw)) : FetchOutcome ε :=
  match fredFetch with
  | .error _ => .caughtError
  | .ok dfFred =>
    match yfFetch with
    | .error e => .raised e
    | .ok dfYf => .data (transform (joinRows dfFred dfYf))

/-- The three-tier status shown for the current spread (lines 92-99). -/
inductive Tier where
  | critical
  | warning
  | normal
deriving DecidableEq, Repr

/-- The status classification of a spread value: default normal, critical
when `spread_val >= 0.05`, else warning when `spread_val > 0`. -/
def status_msg (spread_val : ℚ) : Tier :=
  if spread_val ≥ 0.05 then .critical
  else if spread_val > 0 then .warning
  else .normal

/-- The color of one bar of the stress chart (line 105). -/
inductive BarColor where
  | red
  | yellow
  | green
deriving DecidableEq, Repr

/-- Per-row color rule of the stress bar chart,
`np.where(spread >= 0.05, red, np.where(spread > 0, yellow, green))`. -/
def barColor (s : ℚ) : BarColor :=
  if s ≥ 0.05 then .red
  else if s > 0 then .yellow
  else .green

/-- The three recommendation outcomes (lines 148-162). -/
inductive Action where
  | liquidate
  | buyDip
  | hold
deriving DecidableEq, Repr

/-- The recommendation rule: liquidate when `spread_val >= 0.05`, else buy
the dip when `vix_val >= 25 and liq_diff > 0`, else hold. -/
def final_action (spread_val vix_val liq_diff : ℚ) : Action :=
  if spread_val ≥ 0.05 then .liquidate
  else if vix_val ≥ 25 ∧ liq_diff > 0 then .buyDip
  else .hold

/-- Scalar read of a cell.  Every cell the presenter reads is provably
present in a transformed table (see the completeness theorems), so the
default is never consumed on reachable inputs. -/
def cellVal (o : Option ℚ) : ℚ := o.getD 0

/-- The display values computed by the presenter and the recommendation
block from the final table. -/
structure Presented where
  net_liquidity : ℚ
  liq_diff : ℚ
  tga : ℚ
  rrp : ℚ
  spread_val : ℚ
  status : Tier
  vix_val : ℚ
  move_val : ℚ
  history_colors : List BarColor
  action : Action
deriving DecidableEq, Repr

/-- The presenter (lines 55-162): reads `last = df.iloc[-1]` and
`prev = df.iloc[-5]`, computes the deltas, the status, the per-row bar
colors and the recommendation.  Requires at least five rows, as the source
indexing does. -/
def present (df : List OutRow) (h : 5 ≤ df.length) : Presented :=
  let last := df.get ⟨df.length - 1, by omega⟩
  let prev := df.get ⟨df.length - 5, by omega⟩
  let liq_diff := cellVal last.Net_Liquidity - cellVal prev.Net_Liquidity
  let spread_val := cellVal last.Rate_Spread
  let vix_val := cellVal last.VIX
  { net_liquidity := cellVal last.Net_Liquidity
    liq_diff := liq_diff
    tga := cellVal last.WTREGEN / 1000
    rrp := cellVal last.RRPONTSYD / 1000
    spread_val := spread_val
    status := status_msg spread_val
    vix_val := vix_val
    move_val := cellVal last.MOVE
    history_colors := df.map (fun r => barColor (cellVal r.Rate_Spread))
    action := final_action spread_val vix_val liq_diff }

/-- Outcome of one render pass of the whole script: an uncaught fetch
exception, the error-message page (`df is None`, body skipped), an uncaught
indexing failure on a too-short table, or a rendered dashboard. -/
inductive RenderResult (ε : Type) where
  | uncaught (e : ε)
  | fetchErrorPage
  | indexError
  | dashboard (p : Presented)

/-- The top-level script: call `get_market_data`, and render the dashboard
only when it returned a table (`if df is not None`) that is long enough for
`iloc[-1]` and `iloc[-5]`. -/
def app {ε : Type} (fredFetch : Except ε (List FredRaw))
    (yfFetch : Except ε (List YfRaw)) : RenderResult ε :=
  match get_market_data fredFetch yfFetch with
  | .raised e => .uncaught e
  | .caughtError => .fetchErrorPage
  | .data df =>
    if h : 5 ≤ df.length then .dashboard (present df h) else .indexError

/-- A copy of a row with its Liq_MA20 cell removed and every other cell
kept: used to state that the presenter never reads Liq_MA20. -/
def eraseMA20 (r : OutRow) : OutRow :=
  { r with Liq_MA20 := none }

/-- A concrete fully-observed raw row, for concrete evaluations. -/
def rowOnes : RawRow :=
  ⟨some 1, some 1, some 1, some 1, some 1, some 1, some 1, some 1, some 1⟩

/-- A concrete output row with the same value in all twelve cells. -/
def outConst (q : ℚ) : OutRow :=
  ⟨some q, some q, some q, some q, some q, some q, some q, some q, some q,
   some q, some q, some q⟩

/-- A concrete six-row table whose Net_Liquidity column reads 0,1,2,3,4,5. -/
def df6 : List OutRow :=
  [outConst 0, outConst 1, outConst 2, outConst 3, outConst 4, outConst 5]

/-- Every cell of an output row is present, Liq_MA20 included. -/
def noMissingRow (r : OutRow) : Prop :=
  r.WALCL.isSome = true ∧ r.WTREGEN.isSome = true ∧
  r.RRPONTSYD.isSome = true ∧ r.SOFR.isSome = true ∧
  r.IORB.isSome = true ∧ r.T10Y2Y.isSome = true ∧
  r.GSPC.isSome = true ∧ r.VIX.isSome = true ∧ r.MOVE.isSome = true ∧
  r.Net_Liquidity.isSome = true ∧ r.Rate_Spread.isSome = true ∧
  r.Liq_MA20.isSome = true

/-- Every cell of an output row other than Liq_MA20 is present. -/
def cellsPresent (r : OutRow) : Prop :=
  r.WALCL.isSome = true ∧ r.WTREGEN.isSome = true ∧
  r.RRPONTSYD.isSome = true ∧ r.SOFR.isSome = true ∧
  r.IORB.isSome = true ∧ r.T10Y2Y.isSome = true ∧
  r.GSPC.isSome = true ∧ r.VIX.isSome = true ∧ r.MOVE.isSome = true ∧
  r.Net_Liquidity.isSome = true ∧ r.Rate_Spread.isSome = true

/-- C1: the recommendation is a pure function of (spread, fear index,
liquidity delta) in fixed priority order: spread at least 0.05 forces
liquidation regardless of the other inputs; otherwise VIX at least 25
together with a strictly positive delta gives buy-the-dip; otherwise
hold. -/
theorem C1_recommendation_rule (s v d : ℚ) :
    (s ≥ 0.05 → final_action s v d = .liquidate) ∧
    (¬ s ≥ 0.05 → v ≥ 25 → d > 0 → final_action s v d = .buyDip) ∧
    (¬ s ≥ 0.05 → ¬ (v ≥ 25 ∧ d > 0) → final_action s v d = .hold) := by
  refine ⟨fun h1 => ?_, fun h1 h2 h3 => ?_, fun h1 h2 => ?_⟩
  · unfold final_action
    rw [if_pos h1]
  · unfold final_action
    rw [if_neg h1, if_pos ⟨h2, h3⟩]
  · unfold final_action
    rw [if_neg h1, if_neg h2]

/-- C1 witness: the three scenario rows of the spec, evaluated. -/
theorem C1_recommendation_rule_witness :
    final_action 0.06 10 0 = .liquidate ∧
    final_action 0.02 27 (1/2) = .buyDip ∧
    final_action (-0.01) 15 (-(1/5)) = .hold :=
  ⟨(C1_recommendation_rule 0.06 10 0).1 (by norm_num),
   (C1_recommendation_rule 0.02 27 (1/2)).2.1 (by norm_num) (by norm_num)
     (by norm_num),
   (C1_recommendation_rule (-0.01) 15 (-(1/5))).2.2 (by norm_num)
     (fun hc => absurd hc.1 (by norm_num))⟩

/-- C2: the status classification is total and partitions the line: a
spread is critical exactly on `[0.05, ∞)`, warning exactly on `(0, 0.05)`,
and normal exactly on `(-∞, 0]`. -/
theorem C2_status_partition (s : ℚ) :
    (status_msg s = .critical ↔ 0.05 ≤ s) ∧
    (status_msg s = .warning ↔ 0 < s ∧ s < 0.05) ∧
    (status_msg s = .normal ↔ s ≤ 0) := by
  unfold status_msg
  split_ifs with h1 h2
  · exact ⟨⟨fun _ => h1, fun _ => rfl⟩,
      ⟨fun hc => absurd hc (by decide),
       fun hw => absurd h1 (not_le.mpr hw.2)⟩,
      ⟨fun hc => absurd hc (by decide),
       fun hn => absurd h1 (not_le.mpr (lt_of_le_of_lt hn (by norm_num)))⟩⟩
  · exact ⟨⟨fun hc => absurd hc (by decide), fun h05 => absurd h05 h1⟩,
      ⟨fun _ => ⟨h2, not_le.mp h1⟩, fun _ => rfl⟩,
      ⟨fun hc => absurd hc (by decide), fun hn => absurd h2 (not_lt.mpr hn)⟩⟩
  · exact ⟨⟨fun hc => absurd hc (by decide), fun h05 => absurd h05 h1⟩,
      ⟨fun hc => absurd hc (by decide), fun hw => absurd hw.1 h2⟩,
      ⟨fun _ => not_lt.mp h2, fun _ => rfl⟩⟩

/-- C10: the per-row bar color agrees with the three-tier status: red
exactly when critical, yellow exactly when warning, green exactly when
normal. -/
theorem C10_colors_agree (s : ℚ) :
    (barColor s = .red ↔ status_msg s = .critical) ∧
    (barColor s = .yellow ↔ status_msg s = .warning) ∧
    (barColor s = .green ↔ status_msg s = .normal) := by
  unfold barColor status_msg
  split_ifs <;> refine ⟨?_, ?_, ?_⟩ <;> constructor <;> intro hx <;> simp_all

theorem transform_length (rows : List RawRow) :
    (transform rows).length = (dropna (ffill rows)).length := by
  simp [transform, addDerived]

theorem transform_get (rows : List RawRow) (i : ℕ)
    (h2 : i < (dropna (ffill rows)).length) (h : i < (transform rows).length) :
    (transform rows).get ⟨i, h⟩ =
      ⟨((dropna (ffill rows)).get ⟨i, h2⟩).WALCL,
       ((dropna (ffill rows)).get ⟨i, h2⟩).WTREGEN,
       ((dropna (ffill rows)).get ⟨i, h2⟩).RRPONTSYD,
       ((dropna (ffill rows)).get ⟨i, h2⟩).SOFR,
       ((dropna (ffill rows)).get ⟨i, h2⟩).IORB,
       ((dropna (ffill rows)).get ⟨i, h2⟩).T10Y2Y,
       ((dropna (ffill rows)).get ⟨i, h2⟩).GSPC,
       ((dropna (ffill rows)).get ⟨i, h2⟩).VIX,
       ((dropna (ffill rows)).get ⟨i, h2⟩).MOVE,
       netLiquidity ((dropna (ffill rows)).get ⟨i, h2⟩),
       rateSpread ((dropna (ffill rows)).get ⟨i, h2⟩),
       rolling20 ((dropna (ffill rows)).map netLiquidity) i⟩ := by
  simp only [transform, addDerived]
  exact List.get_mapIdx _ _ i h2

theorem dropna_get_complete (rows : List RawRow) (i : ℕ)
    (h : i < (dropna rows).length) :
    isComplete ((dropna rows).get ⟨i, h⟩) = true :=
  (List.mem_filter.mp (List.get_mem (dropna rows) i h)).2

theorem isComplete_fields (r : RawRow) (h : isComplete r = true) :
    (∃ a, r.WALCL = some a) ∧ (∃ a, r.WTREGEN = some a) ∧
    (∃ a, r.RRPONTSYD = some a) ∧ (∃ a, r.SOFR = some a) ∧
    (∃ a, r.IORB = some a) ∧ (∃ a, r.T10Y2Y = some a) ∧
    (∃ a, r.GSPC = some a) ∧ (∃ a, r.VIX = some a) ∧
    (∃ a, r.MOVE = some a) := by
  simp only [isComplete, Bool.and_eq_true, Option.isSome_iff_exists] at h
  obtain ⟨⟨⟨⟨⟨⟨⟨⟨h1, h2⟩, h3⟩, h4⟩, h5⟩, h6⟩, h7⟩, h8⟩, h9⟩ := h
  exact ⟨h1, h2, h3, h4, h5, h6, h7, h8, h9⟩

theorem netLiquidity_some (r : RawRow) (h : isComplete r = true) :
    ∃ w t p, r.WALCL = some w ∧ r.WTREGEN = some t ∧ r.RRPONTSYD = some p ∧
      netLiquidity r = some (w / 1000000 - t / 1000 - p / 1000) := by
  obtain ⟨⟨w, hw⟩, ⟨t, ht⟩, ⟨p, hp⟩, _⟩ := isComplete_fields r h
  exact ⟨w, t, p, hw, ht, hp, by simp [netLiquidity, hw, ht, hp]⟩

theorem rateSpread_some (r : RawRow) (h : isComplete r = true) :
    ∃ s b, r.SOFR = some s ∧ r.IORB = some b ∧ rateSpread r = some (s - b) := by
  obtain ⟨_, _, _, ⟨s, hs⟩, ⟨b, hb⟩, _⟩ := isComplete_fields r h
  exact ⟨s, b, hs, hb, by simp [rateSpread, hs, hb]⟩

theorem nlCol_all_some (rows : List RawRow) :
    ∀ x ∈ (dropna rows).map netLiquidity, x.isSome = true := by
  intro x hx
  obtain ⟨r, hr, hrx⟩ := List.mem_map.mp hx
  obtain ⟨w, t, p, _, _, _, hn⟩ := netLiquidity_some r (List.mem_filter.mp hr).2
  rw [← hrx, hn]
  rfl

theorem windowSum_map_some (w : List ℚ) : windowSum (w.map some) = some w.sum := by
  induction w with
  | nil => rfl
  | cons a l ih => simp [windowSum, ih]

theorem exists_map_some (l : List (Option ℚ)) (h : ∀ x ∈ l, x.isSome = true) :
    ∃ w : List ℚ, l = w.map some ∧ w.length = l.length := by
  induction l with
  | nil => exact ⟨[], rfl, rfl⟩
  | cons a l ih =>
    obtain ⟨w, hw, hwl⟩ := ih (fun x hx => h x (List.mem_cons_of_mem a hx))
    obtain ⟨b, hb⟩ := Option.isSome_iff_exists.mp (h a (List.mem_cons_self a l))
    exact ⟨b :: w, by rw [List.map_cons, ← hw, hb], by simp [hwl]⟩

theorem rolling20_none (col : List (Option ℚ)) (i : ℕ) (hi : i < 19) :
    rolling20 col i = none := by
  simp only [rolling20]
  rw [if_neg]
  intro hc
  exact absurd hc.1 (by omega)

theorem rolling20_some (col : List (Option ℚ)) (i : ℕ) (hi : 19 ≤ i)
    (hlen : i < col.length) (hall : ∀ x ∈ col, x.isSome = true) :
    ∃ w : List ℚ, (col.drop (i - 19)).take 20 = w.map some ∧ w.length = 20 ∧
      rolling20 col i = some (w.sum / 20) := by
  have hlen20 : ((col.drop (i - 19)).take 20).length = 20 := by
    rw [List.length_take, List.length_drop]
    omega
  obtain ⟨w, hw, hwl⟩ := exists_map_some _ (fun x hx =>
    hall x (List.mem_of_mem_drop (List.mem_of_mem_take hx)))
  refine ⟨w, hw, ?_, ?_⟩
  · rw [hwl]
    exact hlen20
  · simp only [rolling20]
    rw [if_pos ⟨hi, hlen20⟩, hw, windowSum_map_some]
    rfl

theorem transform_map_nl (rows : List RawRow) :
    (transform rows).map OutRow.Net_Liquidity =
      (dropna (ffill rows)).map netLiquidity := by
  apply List.ext_get
  · simp [transform_length]
  · intro n h1 h2
    have hn : n < (transform rows).length := by simpa using h1
    have hn2 : n < (dropna (ffill rows)).length := by simpa using h2
    rw [List.get_map, List.get_map, transform_get rows n hn2]

/-- C5: on every retained row of the transformed table, the Net_Liquidity
cell holds exactly WALCL/1000000 - WTREGEN/1000 - RRPONTSYD/1000, computed
from that row's own (present) raw cells. -/
theorem C5_net_liquidity_formula (rows : List RawRow) (i : ℕ)
    (h : i < (transform rows).length) :
    ∃ w t p, ((transform rows).get ⟨i, h⟩).WALCL = some w ∧
      ((transform rows).get ⟨i, h⟩).WTREGEN = some t ∧
      ((transform rows).get ⟨i, h⟩).RRPONTSYD = some p ∧
      ((transform rows).get ⟨i, h⟩).Net_Liquidity =
        some (w / 1000000 - t / 1000 - p / 1000) := by
  have h2 : i < (dropna (ffill rows)).length := by
    rw [← transform_length rows]
    exact h
  obtain ⟨w, t, p, hw, ht, hp, hn⟩ :=
    netLiquidity_some _ (dropna_get_complete (ffill rows) i h2)
  rw [transform_get rows i h2]
  exact ⟨w, t, p, hw, ht, hp, hn⟩

/-- C5 witness: the identity evaluated on a one-row table. -/
theorem C5_net_liquidity_formula_witness :
    ∃ w t p, ((transform [rowOnes]).get ⟨0, by decide⟩).WALCL = some w ∧
      ((transform [rowOnes]).get ⟨0, by decide⟩).WTREGEN = some t ∧
      ((transform [rowOnes]).get ⟨0, by decide⟩).RRPONTSYD = some p ∧
      ((transform [rowOnes]).get ⟨0, by decide⟩).Net_Liquidity =
        some (w / 1000000 - t / 1000 - p / 1000) :=
  C5_net_liquidity_formula [rowOnes] 0 (by decide)

/-- C6: on every retained row of the transformed table, the Rate_Spread
cell holds exactly SOFR - IORB from that row's own (present) raw cells. -/
theorem C6_rate_spread_formula (rows : List RawRow) (i : ℕ)
    (h : i < (transform rows).length) :
    ∃ s b, ((transform rows).get ⟨i, h⟩).SOFR = some s ∧
      ((transform rows).get ⟨i, h⟩).IORB = some b ∧
      ((transform rows).get ⟨i, h⟩).Rate_Spread = some (s - b) := by
  have h2 : i < (dropna (ffill rows)).length := by
    rw [← transform_length rows]
    exact h
  obtain ⟨s, b, hs, hb, hr⟩ :=
    rateSpread_some _ (dropna_get_complete (ffill rows) i h2)
  rw [transform_get rows i h2]
  exact ⟨s, b, hs, hb, hr⟩

/-- C6 witness: the identity evaluated on a one-row table. -/
theorem C6_rate_spread_formula_witness :
    ∃ s b, ((transform [rowOnes]).get ⟨0, by decide⟩).SOFR = some s ∧
      ((transform [rowOnes]).get ⟨0, by decide⟩).IORB = some b ∧
      ((transform [rowOnes]).get ⟨0, by decide⟩).Rate_Spread = some (s - b) :=
  C6_rate_spread_formula [rowOnes] 0 (by decide)

/-- C3 counterexample: on a valid one-row input with every cell observed,
the transformed table has a row with a missing cell (its Liq_MA20), so the
claim that every row has zero missing values in every column is false. -/
theorem C3_counterexample :
    ¬ ∀ r ∈ transform [rowOnes], noMissingRow r := by
  intro hall
  have h1 : 0 < (transform [rowOnes]).length := by decide
  have h2 : 0 < (dropna (ffill [rowOnes])).length := by decide
  have hma2 : (rolling20 ((dropna (ffill [rowOnes])).map netLiquidity) 0).isSome
      = true := by
    have hr :=
      (hall _ (List.get_mem (transform [rowOnes]) 0 h1)).2.2.2.2.2.2.2.2.2.2.2
    rw [transform_get [rowOnes] 0 h2 h1] at hr
    exact hr
  rw [rolling20_none _ 0 (by omega)] at hma2
  simp at hma2

/-- C3 (amended): every row retained after truncation has zero missing
values in every column except Liq_MA20; the Liq_MA20 cell is present
exactly on the rows with at least 19 predecessors. -/
theorem C3_no_missing_outside_MA20 (rows : List RawRow) (i : ℕ)
    (h : i < (transform rows).length) :
    cellsPresent ((transform rows).get ⟨i, h⟩) ∧
    (((transform rows).get ⟨i, h⟩).Liq_MA20.isSome = true ↔ 19 ≤ i) := by
  have h2 : i < (dropna (ffill rows)).length := by
    rw [← transform_length rows]
    exact h
  have hc := dropna_get_complete (ffill rows) i h2
  obtain ⟨⟨a1, e1⟩, ⟨a2, e2⟩, ⟨a3, e3⟩, ⟨a4, e4⟩, ⟨a5, e5⟩, ⟨a6, e6⟩,
    ⟨a7, e7⟩, ⟨a8, e8⟩, ⟨a9, e9⟩⟩ := isComplete_fields _ hc
  obtain ⟨w, t, p, _, _, _, hn⟩ := netLiquidity_some _ hc
  obtain ⟨s, b, _, _, hs⟩ := rateSpread_some _ hc
  rw [transform_get rows i h2]
  constructor
  · exact ⟨Option.isSome_iff_exists.mpr ⟨a1, e1⟩,
      Option.isSome_iff_exists.mpr ⟨a2, e2⟩,
      Option.isSome_iff_exists.mpr ⟨a3, e3⟩,
      Option.isSome_iff_exists.mpr ⟨a4, e4⟩,
      Option.isSome_iff_exists.mpr ⟨a5, e5⟩,
      Option.isSome_iff_exists.mpr ⟨a6, e6⟩,
      Option.isSome_iff_exists.mpr ⟨a7, e7⟩,
      Option.isSome_iff_exists.mpr ⟨a8, e8⟩,
      Option.isSome_iff_exists.mpr ⟨a9, e9⟩,
      Option.isSome_iff_exists.mpr ⟨_, hn⟩,
      Option.isSome_iff_exists.mpr ⟨_, hs⟩⟩
  · show (rolling20 ((dropna (ffill rows)).map netLiquidity) i).isSome = true
      ↔ 19 ≤ i
    constructor
    · intro hS
      by_contra hlt
      rw [rolling20_none _ i (by omega)] at hS
      simp at hS
    · intro h19
      obtain ⟨w2, _, _, hr⟩ := rolling20_some
        ((dropna (ffill rows)).map netLiquidity) i h19
        (by rw [List.length_map]; exact h2) (nlCol_all_some (ffill rows))
      rw [hr]
      rfl

/-- C3 witness for the amended claim: the first row of a one-row transform
has all cells present except Liq_MA20, which is absent since 0 < 19. -/
theorem C3_no_missing_outside_MA20_witness :
    cellsPresent ((transform [rowOnes]).get ⟨0, by decide⟩) ∧
    (((transform [rowOnes]).get ⟨0, by decide⟩).Liq_MA20.isSome = true
      ↔ 19 ≤ 0) :=
  C3_no_missing_outside_MA20 [rowOnes] 0 (by decide)

/-- C9: the Liq_MA20 cell of row i of the transformed table is the mean of
the 20 Net_Liquidity cells ending at row i whenever 19 rows precede it, is
missing on every row with an incomplete trailing window, and removing the
whole Liq_MA20 column leaves the presenter's output unchanged (the
presenter never reads it, so the missing cells cannot make it fail). -/
theorem C9_liq_ma20_window (rows : List RawRow) (i : ℕ)
    (h : i < (transform rows).length) :
    (i < 19 → ((transform rows).get ⟨i, h⟩).Liq_MA20 = none) ∧
    (19 ≤ i → ∃ w : List ℚ,
      (((transform rows).map OutRow.Net_Liquidity).drop (i - 19)).take 20 =
        w.map some ∧ w.length = 20 ∧
      ((transform rows).get ⟨i, h⟩).Liq_MA20 = some (w.sum / 20)) ∧
    (∀ (df : List OutRow) (h5 : 5 ≤ df.length)
      (h5b : 5 ≤ (df.map eraseMA20).length),
      present (df.map eraseMA20) h5b = present df h5) := by
  have h2 : i < (dropna (ffill rows)).length := by
    rw [← transform_length rows]
    exact h
  refine ⟨?_, ?_, ?_⟩
  · intro hlt
    rw [transform_get rows i h2]
    show rolling20 ((dropna (ffill rows)).map netLiquidity) i = none
    exact rolling20_none _ i hlt
  · intro h19
    obtain ⟨w, hwin, hwl, hr⟩ := rolling20_some
      ((dropna (ffill rows)).map netLiquidity) i h19
      (by rw [List.length_map]; exact h2) (nlCol_all_some (ffill rows))
    refine ⟨w, ?_, hwl, ?_⟩
    · rw [transform_map_nl]
      exact hwin
    · rw [transform_get rows i h2]
      exact hr
  · intro df h5 h5b
    simp only [present, List.get_map, List.length_map, List.map_map,
      eraseMA20]
    rfl

/-- C9 witness: on a one-row transform, the single row's window is
incomplete (0 < 19), and the presenter ignores the Liq_MA20 column. -/
theorem C9_liq_ma20_window_witness :
    (0 < 19 → ((transform [rowOnes]).get ⟨0, by decide⟩).Liq_MA20 = none) ∧
    (19 ≤ 0 → ∃ w : List ℚ,
      (((transform [rowOnes]).map OutRow.Net_Liquidity).drop (0 - 19)).take 20
        = w.map some ∧ w.length = 20 ∧
      ((transform [rowOnes]).get ⟨0, by decide⟩).Liq_MA20 = some (w.sum / 20)) ∧
    (∀ (df : List OutRow) (h5 : 5 ≤ df.length)
      (h5b : 5 ≤ (df.map eraseMA20).length),
      present (df.map eraseMA20) h5b = present df h5) :=
  C9_liq_ma20_window [rowOnes] 0 (by decide)

/-- C4 counterexample: on a six-row table whose Net_Liquidity column reads
0,1,2,3,4,5, the presenter's delta is 4 (last row minus the fifth row from
the end, iloc[-5]), while the last row minus the row five positions earlier
than the last is 5; the claim's window is off by one row. -/
theorem C4_counterexample :
    (present df6 (by decide)).liq_diff = 4 ∧
    cellVal ((df6.get ⟨df6.length - 1, by decide⟩).Net_Liquidity) -
      cellVal ((df6.get ⟨df6.length - 1 - 5, by decide⟩).Net_Liquidity) = 5 ∧
    (4 : ℚ) ≠ 5 := by
  refine ⟨?_, ?_, by norm_num⟩
  · show (5 : ℚ) - 1 = 4
    norm_num
  · show (5 : ℚ) - 0 = 5
    norm_num

/-- C4 (amended): the presenter's period-over-period liquidity delta is
the last row's Net_Liquidity minus the Net_Liquidity of the fifth row
counting from the end (iloc[-5]) — the row FOUR positions earlier than the
last row, not five. -/
theorem C4_liq_diff_window (df : List OutRow) (h : 5 ≤ df.length)
    (h1 : df.length - 1 < df.length) (h5 : df.length - 5 < df.length) :
    (present df h).liq_diff =
      cellVal ((df.get ⟨df.length - 1, h1⟩).Net_Liquidity) -
      cellVal ((df.get ⟨df.length - 5, h5⟩).Net_Liquidity) ∧
    df.length - 5 = (df.length - 1) - 4 := by
  exact ⟨rfl, by omega⟩

/-- C4 witness: the amended delta rule evaluated on the six-row table. -/
theorem C4_liq_diff_window_witness :
    (present df6 (by decide)).liq_diff =
      cellVal ((df6.get ⟨df6.length - 1, by decide⟩).Net_Liquidity) -
      cellVal ((df6.get ⟨df6.length - 5, by decide⟩).Net_Liquidity) ∧
    df6.length - 5 = (df6.length - 1) - 4 :=
  C4_liq_diff_window df6 (by decide) (by decide) (by decide)

/-- C7: when the FRED fetch fails, `get_market_data` catches the error,
shows the failure message and returns None; the script then renders the
error page only — no chart, no crash, no partial dashboard. -/
theorem C7_fred_failure_caught {ε : Type} (e : ε)
    (yfFetch : Except ε (List YfRaw)) :
    get_market_data (Except.error e) yfFetch = FetchOutcome.caughtError ∧
    app (Except.error e) yfFetch = RenderResult.fetchErrorPage :=
  ⟨rfl, rfl⟩

/-- C8: when the Yahoo Finance fetch fails (the FRED fetch having
succeeded), the error is caught nowhere: it propagates out of
`get_market_data` and the whole render pass aborts as an unhandled
failure, with no dashboard-specific message. -/
theorem C8_yf_failure_uncaught {ε : Type} (dfFred : List FredRaw) (e : ε) :
    get_market_data (Except.ok dfFred) (Except.error e) =
      FetchOutcome.raised e ∧
    app (Except.ok dfFred) (Except.error e) = RenderResult.uncaught e :=
  ⟨rfl, rfl⟩

end Dashboard
